import Mathlib

/-
Verification of the Groq API completion nodes (groq_api_llm.py and
groq_api_vlm.py): a shallow embedding of the credential pool, the prompt
preset resolution, the request payload construction and the bounded
retry / key-rotation loop, together with theorems about their behaviour.

The remote HTTP call is modelled by an oracle `env : Nat → Outcome` giving
the outcome of each attempt (indexed by attempt number): either a
`requests.exceptions.RequestException` carrying its textual description
`str(e)`, or a transport-level success carrying the integer status code and
the parsed JSON response body.  A Python exception that the code does not
catch is modelled by the `RunResult.raised` constructor.  The sampling
parameters `temperature` and `top_p` are abstract values of a type parameter
`F`: the code never computes with them, it only copies them into the payload.
-/

namespace GroqNodes

/-- Character-wise lowercasing, embedding Python `str.lower()` on the ASCII
error texts the code compares against. -/
def strToLower (s : String) : String := String.mk (s.data.map Char.toLower)

/-- Contiguous-substring test on character lists. -/
def containsSub (pat : List Char) : List Char → Bool
  | [] => pat.isEmpty
  | c :: rest => pat.isPrefixOf (c :: rest) || containsSub pat rest

/-- Embeds the rate-limit detection of groq_api_llm.py line 154 and
groq_api_vlm.py line 179: the lowercased error text contains the substring
rate limit. -/
def rateLimitSignalB (e : String) : Bool :=
  containsSub "rate limit".data (strToLower e).data

/-- One part of a structured message content list (groq_api_vlm.py lines
142-151): either a text part or an embedded image URL. -/
inductive ContentPart where
  | text (t : String)
  | image_url (url : String)
deriving DecidableEq

/-- Content of a chat message: a plain string (LLM node) or a list of
structured parts (VLM node). -/
inductive MsgContent where
  | str (s : String)
  | parts (l : List ContentPart)
deriving DecidableEq

/-- A role-tagged chat message. -/
structure Message where
  role : String
  content : MsgContent
deriving DecidableEq

/-- The JSON request body `data` built in groq_api_llm.py lines 135-145 and
groq_api_vlm.py lines 160-170: the `stop` key is present only when the stop
string is non-empty. -/
structure Payload (F : Type) where
  model : String
  messages : List Message
  temperature : F
  max_tokens : Nat
  top_p : F
  seed : Nat
  stop : Option String
deriving DecidableEq

/-- A JSON value, as parsed from the response body by `response.json()`.
Only the shapes the extraction path distinguishes are needed. -/
inductive JVal where
  | null
  | str (s : String)
  | arr (l : List JVal)
  | obj (l : List (String × JVal))

/-- Field access on a JSON value: `some` exactly when Python subscripting
with a string key succeeds (a dict containing the key). -/
def JVal.getField : JVal → String → Option JVal
  | .obj l, k => l.lookup k
  | _, _ => none

/-- Subscripting with index 0: `some` exactly when the Python chain
through index 0 then message then content can proceed without an
exception, i.e. the value is a non-empty list. -/
def JVal.firstElem : JVal → Option JVal
  | .arr (x :: _) => some x
  | _ => none

/-- The extraction of choices[0].message.content from the parsed response
body, groq_api_llm.py line 152 and groq_api_vlm.py line 177: `none` models
an uncaught KeyError / IndexError / TypeError. -/
def extractContent (j : JVal) : Option JVal :=
  (((j.getField "choices").bind JVal.firstElem).bind
    (fun m => m.getField "message")).bind
    (fun m => m.getField "content")

/-- Outcome of one attempt of `requests.post` + `raise_for_status`: either a
`RequestException` with its textual description, or a 2xx-equivalent
response with integer status code and parsed JSON body. -/
inductive Outcome where
  | reqError (msg : String)
  | success (status : Nat) (body : JVal)

/-- Bool discriminator: the attempt raised a RequestException. -/
def Outcome.isReqErrorB : Outcome → Bool
  | .reqError _ => true
  | .success _ _ => false

/-- The third component of the returned triple: the integer
`response.status_code` on the success path, a literal string on the failure
paths. -/
inductive StatusVal where
  | num (n : Nat)
  | str (s : String)
deriving DecidableEq

/-- Bool discriminator: the status value is a string. -/
def StatusVal.isStringB : StatusVal → Bool
  | .str _ => true
  | .num _ => false

/-- Bool discriminator: the status value is an integer. -/
def StatusVal.isNumB : StatusVal → Bool
  | .num _ => true
  | .str _ => false

/-- A Python exception that escapes `process_completion_request` because the
`except` clause only catches `requests.exceptions.RequestException`. -/
inductive PyExc where
  | keyError
  | indexError
deriving DecidableEq

/-- Result of a call: either the returned `(text, success, status_code)`
triple, or an uncaught exception propagating to the host framework. -/
inductive RunResult where
  | ret (text : JVal) (success : Bool) (status : StatusVal)
  | raised (e : PyExc)

/-- Bool discriminator: the call raised an uncaught exception. -/
def RunResult.isRaisedB : RunResult → Bool
  | .raised _ => true
  | .ret _ _ _ => false

/-- One HTTP request as issued by `requests.post`: the credential placed in
the Authorization header, and the JSON payload. -/
structure Request (F : Type) where
  key : String
  data : Payload F
deriving DecidableEq

/-- Observable behaviour of one `process_completion_request` call: the
result, the final credential cursor, and the trace of issued requests. -/
structure LoopOut (F : Type) where
  result : RunResult
  finalIndex : Nat
  requests : List (Request F)

/-- The fixed sentinel text printed and returned when the retry budget is
exhausted (groq_api_llm.py line 161, groq_api_vlm.py line 186). -/
def sentinelText : String := "Max retries reached. Unable to complete the request."

/-- The retry loop of groq_api_llm.py lines 147-161 and groq_api_vlm.py
lines 172-186: up to `fuel` attempts, each issuing one request with the
credential at the current cursor; on a rate-limit failure the cursor
advances by one modulo the pool size (`get_next_api_key`), on any other
`RequestException` it is unchanged; a transport success returns the
extracted content, `True` and the integer status code, unless the body
lacks the expected path, in which case the lookup raises; exhaustion
returns the sentinel triple. -/
def runLoop {F : Type} (env : Nat → Outcome) (keys : List String)
    (data : Payload F) : Nat → Nat → Nat → LoopOut F
  | 0, _, idx =>
    ⟨.ret (.str sentinelText) false (.str "429 Too Many Requests"), idx, []⟩
  | fuel + 1, attempt, idx =>
    if idx < keys.length then
      let req : Request F := ⟨keys.getD idx "", data⟩
      match env attempt with
      | .success status body =>
        match extractContent body with
        | some v => ⟨.ret v true (.num status), idx, [req]⟩
        | none => ⟨.raised .keyError, idx, [req]⟩
      | .reqError msg =>
        let idx2 := if rateLimitSignalB msg then (idx + 1) % keys.length else idx
        let rest := runLoop env keys data fuel (attempt + 1) idx2
        ⟨rest.result, rest.finalIndex, req :: rest.requests⟩
    else
      ⟨.raised .indexError, idx, []⟩

/-- The sentinel preset name `DEFAULT_PROMPT` of both nodes. -/
def DEFAULT_PROMPT : String := "Use [system_message] and [user_input]"

/-- The preset lookup `prompt_options.get(preset, "")` of
GroqAPIVLM.get_prompt_content (groq_api_vlm.py lines 71-73); the LLM node
imports an identical helper from utils.api_utils, which is not part of the
sources here and is modelled from the spec: look up the preset in the
mapping, returning the empty string if absent. -/
def get_prompt_content (prompt_options : List (String × String))
    (preset : String) : String :=
  (prompt_options.lookup preset).getD ""

/-- The preset branch of groq_api_llm.py lines 123-126 and groq_api_vlm.py
lines 128-131: the sentinel preset passes the caller-supplied system
message through, any other preset is resolved through the mapping. -/
def resolve_system_message (prompt_options : List (String × String))
    (preset system_message : String) : String :=
  if preset = DEFAULT_PROMPT then system_message
  else get_prompt_content prompt_options preset

/-- GroqAPILLM.process_completion_request (groq_api_llm.py lines 117-161):
resolve the preset, build the two-message payload and the request body
(with `stop` only when non-empty), then run the retry loop starting from
the current credential cursor of the instance.  The unused `json_mode` flag is
kept for fidelity to the Python signature. -/
def process_completion_request_llm {F : Type}
    (prompt_options : List (String × String))
    (api_keys : List String) (current_key_index : Nat)
    (model preset system_message user_input : String)
    (temperature : F) (max_tokens : Nat) (top_p : F) (seed : Nat)
    (max_retries : Nat) (stop : String) (_json_mode : Bool)
    (env : Nat → Outcome) : LoopOut F :=
  let sys := resolve_system_message prompt_options preset system_message
  let messages : List Message :=
    [⟨"system", .str sys⟩, ⟨"user", .str user_input⟩]
  let data : Payload F :=
    { model := model, messages := messages, temperature := temperature,
      max_tokens := max_tokens, top_p := top_p, seed := seed,
      stop := if stop = "" then none else some stop }
  runLoop env api_keys data max_retries 0 current_key_index

/-- The `image` argument of the VLM node: `None`, a non-tensor value, or a
tensor.  Conversion of a tensor to base64 (`tensor_to_pil` / `encode_image`
from utils.image_utils, external to these sources) is abstracted by the
`encoded` field: the value the encoding yields, `none` standing for
Python `None`. -/
inductive ImageArg where
  | noneVal
  | nonTensor
  | tensor (encoded : Option String)
deriving DecidableEq

/-- Bool discriminator: the image argument is a tensor. -/
def ImageArg.isTensorB : ImageArg → Bool
  | .tensor _ => true
  | .noneVal => false
  | .nonTensor => false

/-- Python truthiness of the optional base64 string `encode_image` yields:
falsy exactly for `None` and the empty string. -/
def truthyStrOpt : Option String → Bool
  | none => false
  | some s => !(s == "")

/-- The message list built by groq_api_vlm.py lines 135-155 for a supplied
tensor: one combined text+image message when the base64 encoding is truthy,
the empty list otherwise. -/
def vlmMessages (sys user_input : String) (encoded : Option String) :
    List Message :=
  match encoded with
  | some b64 =>
    if b64 = "" then []
    else
      [⟨"user", .parts [.text (sys ++ "\n" ++ user_input),
        .image_url ("data:image/jpeg;base64," ++ b64)]⟩]
  | none => []

/-- GroqAPIVLM.process_completion_request (groq_api_vlm.py lines 122-186):
resolve the preset; with no tensor image return the fixed 400 triple at
once without any request; otherwise build the payload (messages empty when
the encoding is falsy) and run the retry loop. -/
def process_completion_request_vlm {F : Type}
    (prompt_options : List (String × String))
    (api_keys : List String) (current_key_index : Nat)
    (model : String) (image : ImageArg)
    (temperature : F) (max_tokens : Nat) (top_p : F) (seed : Nat)
    (max_retries : Nat) (stop : String) (_json_mode : Bool)
    (preset system_message user_input : String)
    (env : Nat → Outcome) : LoopOut F :=
  let sys := resolve_system_message prompt_options preset system_message
  match image with
  | .tensor encoded =>
    let messages := vlmMessages sys user_input encoded
    let data : Payload F :=
      { model := model, messages := messages, temperature := temperature,
        max_tokens := max_tokens, top_p := top_p, seed := seed,
        stop := if stop = "" then none else some stop }
    runLoop env api_keys data max_retries 0 current_key_index
  | _ =>
    ⟨.ret (.str "Image is required for VLM models.") false
      (.str "400 Bad Request"), current_key_index, []⟩

/-- Python str.split on a comma, over a character list: never collapses
separators and always yields at least one (possibly empty) piece. -/
def splitComma : List Char → List String
  | [] => [""]
  | c :: rest =>
    if c = ',' then "" :: splitComma rest
    else
      match splitComma rest with
      | [] => [String.mk [c]]
      | h :: t => String.mk (c :: h.data) :: t

/-- load_api_keys (groq_api_llm.py lines 39-56, groq_api_vlm.py lines
30-47): when a configuration value is found, split it on commas and strip
each piece; otherwise fall back to the single placeholder key.  The file
search and INI parsing are abstracted into the optional raw value. -/
def load_api_keys (config : Option String) : List String :=
  match config with
  | some raw => (splitComma raw.data).map String.trim
  | none => ["default_api_key"]

/-- Per-instance node state: the credential pool and the cursor. -/
structure NodeState where
  api_keys : List String
  current_key_index : Nat

/-- Construction (`__init__`): load the keys and start the cursor at 0. -/
def mkNodeState (config : Option String) : NodeState :=
  ⟨load_api_keys config, 0⟩

/-- get_next_api_key (groq_api_llm.py lines 57-59, groq_api_vlm.py lines
49-51): advance the cursor by one modulo the pool size and return the key
there. -/
def get_next_api_key (s : NodeState) : String × NodeState :=
  let i := (s.current_key_index + 1) % s.api_keys.length
  (s.api_keys.getD i "", ⟨s.api_keys, i⟩)

/-- An operation on a node instance: an explicit rotation, or one dispatch
of the retry loop, which updates the cursor to the final cursor of the loop. -/
inductive NodeOp (F : Type) where
  | rotate
  | dispatch (data : Payload F) (env : Nat → Outcome) (fuel : Nat)

/-- Effect of one operation on the node state. -/
def applyOp {F : Type} (s : NodeState) : NodeOp F → NodeState
  | .rotate => (get_next_api_key s).2
  | .dispatch data env fuel =>
    ⟨s.api_keys, (runLoop env s.api_keys data fuel 0 s.current_key_index).finalIndex⟩

/-- Effect of a sequence of operations. -/
def applyOps {F : Type} (s : NodeState) (ops : List (NodeOp F)) : NodeState :=
  ops.foldl applyOp s

/-- A well-formed response body whose first choice carries the message
content "hello"; used as a concrete test vector. -/
def okBody : JVal :=
  .obj [("choices", .arr [.obj [("message", .obj [("content", .str "hello")])]])]

/-- A concrete payload used as a test vector. -/
def witnessPayload : Payload Nat :=
  { model := "model-a",
    messages := [⟨"system", .str (resolve_system_message [] "preset-a" "sys")⟩,
                 ⟨"user", .str "usr"⟩],
    temperature := 1, max_tokens := 128, top_p := 1, seed := 42,
    stop := if "" = "" then none else some "" }

/-! ### Step equations for the retry loop -/

theorem runLoop_zero {F : Type} (env : Nat → Outcome) (keys : List String)
    (data : Payload F) (attempt idx : Nat) :
    runLoop env keys data 0 attempt idx =
      ⟨.ret (.str sentinelText) false (.str "429 Too Many Requests"), idx, []⟩ := rfl

theorem runLoop_oob {F : Type} (env : Nat → Outcome) (keys : List String)
    (data : Payload F) (fuel attempt idx : Nat) (h : ¬ idx < keys.length) :
    runLoop env keys data (fuel + 1) attempt idx = ⟨.raised .indexError, idx, []⟩ := by
  simp only [runLoop, if_neg h]

theorem runLoop_success_step {F : Type} (env : Nat → Outcome) (keys : List String)
    (data : Payload F) (fuel attempt idx : Nat) (status : Nat) (body v : JVal)
    (h : idx < keys.length) (henv : env attempt = .success status body)
    (hex : extractContent body = some v) :
    runLoop env keys data (fuel + 1) attempt idx =
      ⟨.ret v true (.num status), idx, [⟨keys.getD idx "", data⟩]⟩ := by
  simp only [runLoop, if_pos h, henv, hex]

theorem runLoop_success_bad_step {F : Type} (env : Nat → Outcome) (keys : List String)
    (data : Payload F) (fuel attempt idx : Nat) (status : Nat) (body : JVal)
    (h : idx < keys.length) (henv : env attempt = .success status body)
    (hex : extractContent body = none) :
    runLoop env keys data (fuel + 1) attempt idx =
      ⟨.raised .keyError, idx, [⟨keys.getD idx "", data⟩]⟩ := by
  simp only [runLoop, if_pos h, henv, hex]

theorem runLoop_fail_step {F : Type} (env : Nat → Outcome) (keys : List String)
    (data : Payload F) (fuel attempt idx : Nat) (msg : String)
    (h : idx < keys.length) (henv : env attempt = .reqError msg) :
    runLoop env keys data (fuel + 1) attempt idx =
      ⟨(runLoop env keys data fuel (attempt + 1)
          (if rateLimitSignalB msg then (idx + 1) % keys.length else idx)).result,
       (runLoop env keys data fuel (attempt + 1)
          (if rateLimitSignalB msg then (idx + 1) % keys.length else idx)).finalIndex,
       ⟨keys.getD idx "", data⟩ ::
         (runLoop env keys data fuel (attempt + 1)
           (if rateLimitSignalB msg then (idx + 1) % keys.length else idx)).requests⟩ := by
  simp only [runLoop, if_pos h, henv]

/-! ### Behavioural lemmas about the retry loop -/

theorem runLoop_requests_data {F : Type} (env : Nat → Outcome) (keys : List String)
    (data : Payload F) :
    ∀ (fuel attempt idx : Nat),
      ∀ r ∈ (runLoop env keys data fuel attempt idx).requests, r.data = data := by
  intro fuel
  induction fuel with
  | zero =>
    intro attempt idx r hr
    rw [runLoop_zero] at hr
    simp at hr
  | succ n ih =>
    intro attempt idx r hr
    by_cases h : idx < keys.length
    · cases henv : env attempt with
      | success status body =>
        cases hex : extractContent body with
        | some v =>
          rw [runLoop_success_step env keys data n attempt idx status body v h henv hex] at hr
          simp at hr
          rw [hr]
        | none =>
          rw [runLoop_success_bad_step env keys data n attempt idx status body h henv hex] at hr
          simp at hr
          rw [hr]
      | reqError msg =>
        rw [runLoop_fail_step env keys data n attempt idx msg h henv] at hr
        simp only [List.mem_cons] at hr
        rcases hr with hr | hr
        · rw [hr]
        · exact ih (attempt + 1) _ r hr
    · rw [runLoop_oob env keys data n attempt idx h] at hr
      simp at hr

theorem runLoop_finalIndex_lt {F : Type} (env : Nat → Outcome) (keys : List String)
    (data : Payload F) :
    ∀ (fuel attempt idx : Nat), idx < keys.length →
      (runLoop env keys data fuel attempt idx).finalIndex < keys.length := by
  intro fuel
  induction fuel with
  | zero =>
    intro attempt idx hidx
    rw [runLoop_zero]
    exact hidx
  | succ n ih =>
    intro attempt idx hidx
    cases henv : env attempt with
    | success status body =>
      cases hex : extractContent body with
      | some v =>
        rw [runLoop_success_step env keys data n attempt idx status body v hidx henv hex]
        exact hidx
      | none =>
        rw [runLoop_success_bad_step env keys data n attempt idx status body hidx henv hex]
        exact hidx
    | reqError msg =>
      rw [runLoop_fail_step env keys data n attempt idx msg hidx henv]
      apply ih
      by_cases hrl : rateLimitSignalB msg
      · rw [if_pos hrl]
        exact Nat.mod_lt _ (Nat.lt_of_le_of_lt (Nat.zero_le _) hidx)
      · rw [if_neg hrl]
        exact hidx

theorem runLoop_allFail {F : Type} (env : Nat → Outcome) (keys : List String)
    (data : Payload F) :
    ∀ (fuel attempt idx : Nat), idx < keys.length →
      (∀ i, attempt ≤ i → i < attempt + fuel → (env i).isReqErrorB = true) →
      (runLoop env keys data fuel attempt idx).result =
        .ret (.str sentinelText) false (.str "429 Too Many Requests") := by
  intro fuel
  induction fuel with
  | zero =>
    intro attempt idx _ _
    rw [runLoop_zero]
  | succ n ih =>
    intro attempt idx hidx hfail
    cases henv : env attempt with
    | success status body =>
      have h0 : (env attempt).isReqErrorB = true :=
        hfail attempt (Nat.le_refl _) (by omega)
      rw [henv] at h0
      simp [Outcome.isReqErrorB] at h0
    | reqError msg =>
      rw [runLoop_fail_step env keys data n attempt idx msg hidx henv]
      apply ih
      · by_cases hrl : rateLimitSignalB msg
        · rw [if_pos hrl]
          exact Nat.mod_lt _ (Nat.lt_of_le_of_lt (Nat.zero_le _) hidx)
        · rw [if_neg hrl]
          exact hidx
      · intro i hlo hhi
        exact hfail i (by omega) (by omega)

theorem runLoop_requests_head {F : Type} (env : Nat → Outcome) (keys : List String)
    (data : Payload F) (fuel attempt idx : Nat) (hidx : idx < keys.length) :
    (runLoop env keys data (fuel + 1) attempt idx).requests[0]? =
      some ⟨keys.getD idx "", data⟩ := by
  cases henv : env attempt with
  | success status body =>
    cases hex : extractContent body with
    | some v =>
      rw [runLoop_success_step env keys data fuel attempt idx status body v hidx henv hex]
      rfl
    | none =>
      rw [runLoop_success_bad_step env keys data fuel attempt idx status body hidx henv hex]
      rfl
  | reqError msg =>
    rw [runLoop_fail_step env keys data fuel attempt idx msg hidx henv]
    simp

theorem runLoop_requests_ne_nil {F : Type} (env : Nat → Outcome) (keys : List String)
    (data : Payload F) (fuel attempt idx : Nat) (hidx : idx < keys.length) :
    (runLoop env keys data (fuel + 1) attempt idx).requests ≠ [] := by
  intro hnil
  have h := runLoop_requests_head env keys data fuel attempt idx hidx
  rw [hnil] at h
  simp at h

theorem runLoop_no_raise {F : Type} (env : Nat → Outcome) (keys : List String)
    (data : Payload F) :
    ∀ (fuel attempt idx : Nat), idx < keys.length →
      (∀ i status body, env i = .success status body →
        (extractContent body).isSome = true) →
      ((runLoop env keys data fuel attempt idx).result).isRaisedB = false := by
  intro fuel
  induction fuel with
  | zero =>
    intro attempt idx _ _
    rw [runLoop_zero]
    rfl
  | succ n ih =>
    intro attempt idx hidx hbody
    cases henv : env attempt with
    | success status body =>
      cases hex : extractContent body with
      | some v =>
        rw [runLoop_success_step env keys data n attempt idx status body v hidx henv hex]
        rfl
      | none =>
        have h := hbody attempt status body henv
        rw [hex] at h
        simp at h
    | reqError msg =>
      rw [runLoop_fail_step env keys data n attempt idx msg hidx henv]
      apply ih
      · by_cases hrl : rateLimitSignalB msg
        · rw [if_pos hrl]
          exact Nat.mod_lt _ (Nat.lt_of_le_of_lt (Nat.zero_le _) hidx)
        · rw [if_neg hrl]
          exact hidx
      · exact hbody

theorem runLoop_ret_status {F : Type} (env : Nat → Outcome) (keys : List String)
    (data : Payload F) :
    ∀ (fuel attempt idx : Nat) (t : JVal) (su : Bool) (st : StatusVal),
      (runLoop env keys data fuel attempt idx).result = .ret t su st →
      st.isStringB = !su ∧ st.isNumB = su := by
  intro fuel
  induction fuel with
  | zero =>
    intro attempt idx t su st h
    rw [runLoop_zero] at h
    simp only [RunResult.ret.injEq] at h
    rw [← h.2.1, ← h.2.2]
    exact ⟨rfl, rfl⟩
  | succ n ih =>
    intro attempt idx t su st h
    by_cases hidx : idx < keys.length
    · cases henv : env attempt with
      | success status body =>
        cases hex : extractContent body with
        | some v =>
          rw [runLoop_success_step env keys data n attempt idx status body v hidx henv hex] at h
          simp only [RunResult.ret.injEq] at h
          rw [← h.2.1, ← h.2.2]
          exact ⟨rfl, rfl⟩
        | none =>
          rw [runLoop_success_bad_step env keys data n attempt idx status body hidx henv hex] at h
          simp at h
      | reqError msg =>
        rw [runLoop_fail_step env keys data n attempt idx msg hidx henv] at h
        exact ih (attempt + 1) _ t su st h
    · rw [runLoop_oob env keys data n attempt idx hidx] at h
      simp at h

/-! ### Lemmas about the credential pool -/

theorem splitComma_ne_nil : ∀ l : List Char, splitComma l ≠ [] := by
  intro l
  cases l with
  | nil => simp [splitComma]
  | cons c rest =>
    by_cases h : c = ','
    · simp [splitComma, h]
    · simp only [splitComma, if_neg h]
      cases splitComma rest with
      | nil => simp
      | cons hd tl => simp

theorem load_api_keys_length_pos (config : Option String) :
    0 < (load_api_keys config).length := by
  cases config with
  | none => simp [load_api_keys]
  | some raw =>
    simp only [load_api_keys, List.length_map]
    exact List.length_pos.mpr (splitComma_ne_nil raw.data)

theorem applyOp_preserves {F : Type} (s : NodeState) (op : NodeOp F)
    (h : s.current_key_index < s.api_keys.length) :
    (applyOp s op).api_keys = s.api_keys ∧
      (applyOp s op).current_key_index < (applyOp s op).api_keys.length := by
  cases op with
  | rotate =>
    refine ⟨rfl, ?_⟩
    simp only [applyOp, get_next_api_key]
    exact Nat.mod_lt _ (Nat.lt_of_le_of_lt (Nat.zero_le _) h)
  | dispatch data env fuel =>
    refine ⟨rfl, ?_⟩
    simp only [applyOp]
    exact runLoop_finalIndex_lt env s.api_keys data fuel 0 s.current_key_index h

theorem applyOps_preserves {F : Type} :
    ∀ (ops : List (NodeOp F)) (s : NodeState),
      s.current_key_index < s.api_keys.length →
      (applyOps s ops).api_keys = s.api_keys ∧
        (applyOps s ops).current_key_index < (applyOps s ops).api_keys.length := by
  intro ops
  induction ops with
  | nil =>
    intro s h
    exact ⟨rfl, h⟩
  | cons op rest ih =>
    intro s h
    have h1 := applyOp_preserves s op h
    have h2 := ih (applyOp s op) h1.2
    refine ⟨?_, h2.2⟩
    rw [show applyOps s (op :: rest) = applyOps (applyOp s op) rest from rfl]
    rw [h2.1, h1.1]

/-! ### Claims -/

/-- C1: when every one of the max_retries attempts fails with a
RequestException, both the LLM node and the VLM node return exactly the
triple ("Max retries reached. Unable to complete the request.", false,
"429 Too Many Requests"), whatever the failure messages were — in
particular also when none of them was a rate-limit error. -/
theorem c1_retries_exhausted_result {F : Type}
    (prompt_options : List (String × String)) (keys : List String) (idx : Nat)
    (model preset system_message user_input : String)
    (temperature top_p : F) (max_tokens seed max_retries : Nat)
    (stop : String) (json_mode : Bool) (encoded : Option String)
    (env : Nat → Outcome)
    (hidx : idx < keys.length)
    (hfail : ∀ i, i < max_retries → (env i).isReqErrorB = true) :
    (process_completion_request_llm prompt_options keys idx model preset
        system_message user_input temperature max_tokens top_p seed
        max_retries stop json_mode env).result =
      .ret (.str sentinelText) false (.str "429 Too Many Requests") ∧
    (process_completion_request_vlm prompt_options keys idx model
        (.tensor encoded) temperature max_tokens top_p seed max_retries stop
        json_mode preset system_message user_input env).result =
      .ret (.str sentinelText) false (.str "429 Too Many Requests") := by
  constructor
  · exact runLoop_allFail env keys _ max_retries 0 idx hidx
      (fun i _ h2 => hfail i (by omega))
  · exact runLoop_allFail env keys _ max_retries 0 idx hidx
      (fun i _ h2 => hfail i (by omega))

/-- C1 witness: two attempts, both failing with a non-rate-limit error. -/
theorem c1_retries_exhausted_result_witness :
    (process_completion_request_llm [] ["k1", "k2"] 0 "model-a" "preset-a" "sys" "usr"
        (1 : Nat) 128 1 42 2 "" false (fun _ => .reqError "connection refused")).result =
      .ret (.str sentinelText) false (.str "429 Too Many Requests") :=
  (c1_retries_exhausted_result [] ["k1", "k2"] 0 "model-a" "preset-a" "sys" "usr"
      (1 : Nat) (1 : Nat) 128 42 2 "" false none
      (fun _ => .reqError "connection refused") (by decide) (fun _ _ => rfl)).1

/-- C2: after an attempt fails with textual description msg, a
single-attempt loop ends with the cursor advanced by one modulo the pool
size exactly when msg contains "rate limit" case-insensitively and with the
cursor unchanged otherwise, and in a longer loop the next attempt uses
precisely the credential at that cursor position. -/
theorem c2_rotation_iff_rate_limit {F : Type} (env : Nat → Outcome)
    (keys : List String) (data : Payload F) (fuel attempt idx : Nat) (msg : String)
    (hidx : idx < keys.length) (henv : env attempt = .reqError msg) :
    (runLoop env keys data 1 attempt idx).finalIndex =
      (if rateLimitSignalB msg then (idx + 1) % keys.length else idx) ∧
    (runLoop env keys data (fuel + 2) attempt idx).requests[1]? =
      some ⟨keys.getD
        (if rateLimitSignalB msg then (idx + 1) % keys.length else idx) "", data⟩ := by
  have hlen : 0 < keys.length := Nat.lt_of_le_of_lt (Nat.zero_le _) hidx
  have hidx2 :
      (if rateLimitSignalB msg then (idx + 1) % keys.length else idx) < keys.length := by
    by_cases hrl : rateLimitSignalB msg
    · rw [if_pos hrl]
      exact Nat.mod_lt _ hlen
    · rw [if_neg hrl]
      exact hidx
  constructor
  · rw [runLoop_fail_step env keys data 0 attempt idx msg hidx henv]
    simp only [runLoop_zero]
  · have hproj : (runLoop env keys data (fuel + 2) attempt idx).requests =
        ⟨keys.getD idx "", data⟩ ::
          (runLoop env keys data (fuel + 1) (attempt + 1)
            (if rateLimitSignalB msg then (idx + 1) % keys.length else idx)).requests := by
      rw [runLoop_fail_step env keys data (fuel + 1) attempt idx msg hidx henv]
    rw [hproj]
    simpa using runLoop_requests_head env keys data fuel (attempt + 1)
      (if rateLimitSignalB msg then (idx + 1) % keys.length else idx) hidx2

/-- C2 witness: a mixed-case rate-limit failure at cursor 1 in a pool of
three keys advances the cursor to 2 and the next attempt uses key "k3". -/
theorem c2_rotation_iff_rate_limit_witness :
    (runLoop (fun _ => .reqError "Rate Limit reached") ["k1", "k2", "k3"]
        witnessPayload 1 0 1).finalIndex = 2 ∧
    (runLoop (fun _ => .reqError "Rate Limit reached") ["k1", "k2", "k3"]
        witnessPayload 2 0 1).requests[1]? = some ⟨"k3", witnessPayload⟩ :=
  c2_rotation_iff_rate_limit (fun _ => .reqError "Rate Limit reached")
    ["k1", "k2", "k3"] witnessPayload 0 0 1 "Rate Limit reached" (by decide) rfl

/-- C3 counterexample: a transport-successful response whose JSON body is
the empty object makes the LLM node raise an uncaught KeyError instead of
returning any result tuple, refuting the claim that no execution raises to
the host framework. -/
theorem c3_never_raises_counterexample :
    (process_completion_request_llm [] ["k1"] 0 "model-a" "preset-a" "sys" "usr"
        (1 : Nat) 128 1 42 1 "" false (fun _ => .success 200 (.obj []))).result =
      .raised .keyError := rfl

/-- C3 amended: provided every transport-successful response body contains
the path choices[0].message.content, neither node ever raises: every
failure is returned to the caller as a result tuple.  Without that proviso
a 2xx response whose parsed body lacks the path raises an uncaught
exception to the host framework. -/
theorem c3_no_raise_amended {F : Type}
    (prompt_options : List (String × String)) (keys : List String) (idx : Nat)
    (model preset system_message user_input : String) (temperature top_p : F)
    (max_tokens seed max_retries : Nat) (stop : String) (json_mode : Bool)
    (image : ImageArg) (env : Nat → Outcome)
    (hidx : idx < keys.length)
    (hbody : ∀ i status body, env i = .success status body →
      (extractContent body).isSome = true) :
    ((process_completion_request_llm prompt_options keys idx model preset
        system_message user_input temperature max_tokens top_p seed
        max_retries stop json_mode env).result).isRaisedB = false ∧
    ((process_completion_request_vlm prompt_options keys idx model image
        temperature max_tokens top_p seed max_retries stop json_mode preset
        system_message user_input env).result).isRaisedB = false := by
  constructor
  · exact runLoop_no_raise env keys _ max_retries 0 idx hidx hbody
  · cases image with
    | tensor encoded => exact runLoop_no_raise env keys _ max_retries 0 idx hidx hbody
    | noneVal => rfl
    | nonTensor => rfl

/-- C3 witness: three request-level failures are absorbed and returned as a
tuple, nothing is raised. -/
theorem c3_no_raise_amended_witness :
    ((process_completion_request_llm [] ["k1"] 0 "model-a" "preset-a" "sys" "usr"
        (1 : Nat) 128 1 42 3 "" false
        (fun _ => .reqError "timeout")).result).isRaisedB = false :=
  (c3_no_raise_amended [] ["k1"] 0 "model-a" "preset-a" "sys" "usr" (1 : Nat) (1 : Nat)
      128 42 3 "" false .noneVal (fun _ => .reqError "timeout") (by decide)
      (fun _ _ _ h => Outcome.noConfusion h)).1

/-- C4 counterexample: on the success path the returned triple carries the
integer response status code (here 200), not a string, refuting the claim
that the third component is a string on every path. -/
theorem c4_status_always_string_counterexample :
    (process_completion_request_llm [] ["k1"] 0 "model-a" "preset-a" "sys" "usr"
        (1 : Nat) 128 1 42 1 "" false (fun _ => .success 200 okBody)).result =
      .ret (.str "hello") true (.num 200) ∧
    StatusVal.isStringB (.num 200) = false := ⟨rfl, rfl⟩

/-- C4 amended: for every triple either node returns, the status code is a
string exactly on the failure paths (success flag false) and the integer
response status code exactly on the success path (success flag true). -/
theorem c4_status_kind_amended {F : Type}
    (prompt_options : List (String × String)) (keys : List String) (idx : Nat)
    (model preset system_message user_input : String) (temperature top_p : F)
    (max_tokens seed max_retries : Nat) (stop : String) (json_mode : Bool)
    (image : ImageArg) (env : Nat → Outcome)
    (t : JVal) (su : Bool) (st : StatusVal) :
    ((process_completion_request_llm prompt_options keys idx model preset
        system_message user_input temperature max_tokens top_p seed
        max_retries stop json_mode env).result = .ret t su st →
      st.isStringB = !su ∧ st.isNumB = su) ∧
    ((process_completion_request_vlm prompt_options keys idx model image
        temperature max_tokens top_p seed max_retries stop json_mode preset
        system_message user_input env).result = .ret t su st →
      st.isStringB = !su ∧ st.isNumB = su) := by
  constructor
  · intro h
    exact runLoop_ret_status env keys _ max_retries 0 idx t su st h
  · intro h
    cases image with
    | tensor encoded => exact runLoop_ret_status env keys _ max_retries 0 idx t su st h
    | noneVal =>
      injection h with h1 h2 h3
      rw [← h2, ← h3]
      exact ⟨rfl, rfl⟩
    | nonTensor =>
      injection h with h1 h2 h3
      rw [← h2, ← h3]
      exact ⟨rfl, rfl⟩

/-- C4 witness: the exhausted-retries failure triple carries a string
status and success flag false. -/
theorem c4_status_kind_amended_witness :
    StatusVal.isStringB (.str "429 Too Many Requests") = !false ∧
    StatusVal.isNumB (.str "429 Too Many Requests") = false :=
  (c4_status_kind_amended [] ["k1"] 0 "model-a" "preset-a" "sys" "usr" (1 : Nat)
      (1 : Nat) 128 42 1 "" false .noneVal (fun _ => .reqError "boom")
      (.str sentinelText) false (.str "429 Too Many Requests")).1 rfl

/-- C5: when the first attempt yields a 2xx response whose body carries the
first choice message content, both nodes return that content, true and the
integer status code at once: exactly one request is issued and the cursor
is unchanged. -/
theorem c5_first_attempt_success {F : Type}
    (prompt_options : List (String × String)) (keys : List String) (idx : Nat)
    (model preset system_message user_input : String) (temperature top_p : F)
    (max_tokens seed fuel : Nat) (stop : String) (json_mode : Bool)
    (encoded : Option String) (env : Nat → Outcome)
    (status : Nat) (body v : JVal)
    (hidx : idx < keys.length) (henv : env 0 = .success status body)
    (hex : extractContent body = some v) :
    ((process_completion_request_llm prompt_options keys idx model preset
        system_message user_input temperature max_tokens top_p seed
        (fuel + 1) stop json_mode env).result = .ret v true (.num status) ∧
     (process_completion_request_llm prompt_options keys idx model preset
        system_message user_input temperature max_tokens top_p seed
        (fuel + 1) stop json_mode env).finalIndex = idx ∧
     (process_completion_request_llm prompt_options keys idx model preset
        system_message user_input temperature max_tokens top_p seed
        (fuel + 1) stop json_mode env).requests.length = 1) ∧
    ((process_completion_request_vlm prompt_options keys idx model
        (.tensor encoded) temperature max_tokens top_p seed (fuel + 1) stop
        json_mode preset system_message user_input env).result =
          .ret v true (.num status) ∧
     (process_completion_request_vlm prompt_options keys idx model
        (.tensor encoded) temperature max_tokens top_p seed (fuel + 1) stop
        json_mode preset system_message user_input env).finalIndex = idx ∧
     (process_completion_request_vlm prompt_options keys idx model
        (.tensor encoded) temperature max_tokens top_p seed (fuel + 1) stop
        json_mode preset system_message user_input env).requests.length = 1) := by
  refine ⟨⟨?_, ?_, ?_⟩, ?_, ?_, ?_⟩
  · exact congrArg LoopOut.result
      (runLoop_success_step env keys _ fuel 0 idx status body v hidx henv hex)
  · exact congrArg LoopOut.finalIndex
      (runLoop_success_step env keys _ fuel 0 idx status body v hidx henv hex)
  · exact congrArg List.length (congrArg LoopOut.requests
      (runLoop_success_step env keys _ fuel 0 idx status body v hidx henv hex))
  · exact congrArg LoopOut.result
      (runLoop_success_step env keys _ fuel 0 idx status body v hidx henv hex)
  · exact congrArg LoopOut.finalIndex
      (runLoop_success_step env keys _ fuel 0 idx status body v hidx henv hex)
  · exact congrArg List.length (congrArg LoopOut.requests
      (runLoop_success_step env keys _ fuel 0 idx status body v hidx henv hex))

/-- C5 witness: an immediate success with the test body returns its content
with integer status 200. -/
theorem c5_first_attempt_success_witness :
    (process_completion_request_llm [] ["k1", "k2"] 1 "model-a" "preset-a" "sys" "usr"
        (1 : Nat) 128 1 42 3 "" false (fun _ => .success 200 okBody)).result =
      .ret (.str "hello") true (.num 200) :=
  ((c5_first_attempt_success [] ["k1", "k2"] 1 "model-a" "preset-a" "sys" "usr"
      (1 : Nat) (1 : Nat) 128 42 2 "" false none (fun _ => .success 200 okBody)
      200 okBody (.str "hello") (by decide) rfl rfl).1).1

/-- C6: the sentinel preset passes the caller-supplied system message
through whatever the mapping holds; any other preset resolves to the value
the mapping gives it when present and to the empty string when absent,
without failing. -/
theorem c6_preset_resolution (prompt_options : List (String × String))
    (preset system_message : String) :
    (preset = DEFAULT_PROMPT →
      resolve_system_message prompt_options preset system_message = system_message) ∧
    (preset ≠ DEFAULT_PROMPT →
      (∀ v, prompt_options.lookup preset = some v →
        resolve_system_message prompt_options preset system_message = v) ∧
      (prompt_options.lookup preset = none →
        resolve_system_message prompt_options preset system_message = "")) := by
  constructor
  · intro h
    simp [resolve_system_message, h]
  · intro h
    constructor
    · intro v hv
      simp [resolve_system_message, h, get_prompt_content, hv]
    · intro hv
      simp [resolve_system_message, h, get_prompt_content, hv]

/-- C6 witness: a preset present in the mapping resolves to the value the
mapping holds. -/
theorem c6_preset_resolution_witness :
    resolve_system_message [("describe", "Describe the image")] "describe" "explicit" =
      "Describe the image" :=
  ((c6_preset_resolution [("describe", "Describe the image")] "describe" "explicit").2
      (by decide)).1 "Describe the image" rfl

/-- C7: with no tensor image supplied, the VLM node returns exactly
("Image is required for VLM models.", false, "400 Bad Request") with the
cursor unchanged and no request issued. -/
theorem c7_missing_image {F : Type}
    (prompt_options : List (String × String)) (keys : List String) (idx : Nat)
    (model : String) (temperature top_p : F) (max_tokens seed max_retries : Nat)
    (stop : String) (json_mode : Bool) (preset system_message user_input : String)
    (env : Nat → Outcome) (image : ImageArg)
    (h : image.isTensorB = false) :
    process_completion_request_vlm prompt_options keys idx model image temperature
        max_tokens top_p seed max_retries stop json_mode preset system_message
        user_input env =
      ⟨.ret (.str "Image is required for VLM models.") false (.str "400 Bad Request"),
        idx, []⟩ := by
  cases image with
  | tensor encoded => simp [ImageArg.isTensorB] at h
  | noneVal => rfl
  | nonTensor => rfl

/-- C7 witness: a missing image yields the fixed 400 triple and an empty
request trace. -/
theorem c7_missing_image_witness :
    process_completion_request_vlm [] ["k1"] 0 "model-v" .noneVal (1 : Nat) 128 1 42 2
        "" false "preset-a" "sys" "usr" (fun _ => .reqError "boom") =
      ⟨.ret (.str "Image is required for VLM models.") false (.str "400 Bad Request"),
        0, []⟩ :=
  c7_missing_image [] ["k1"] 0 "model-v" (1 : Nat) (1 : Nat) 128 42 2 "" false
    "preset-a" "sys" "usr" (fun _ => .reqError "boom") .noneVal rfl

/-- C9: an image tensor whose base64 encoding is falsy does not produce the
immediate 400 result: the VLM node still enters the retry loop, and every
request it issues carries an empty messages list. -/
theorem c9_falsy_encoding_empty_messages {F : Type}
    (prompt_options : List (String × String)) (keys : List String) (idx : Nat)
    (model : String) (encoded : Option String) (temperature top_p : F)
    (max_tokens seed fuel : Nat) (stop : String) (json_mode : Bool)
    (preset system_message user_input : String) (env : Nat → Outcome)
    (hidx : idx < keys.length) (henc : truthyStrOpt encoded = false) :
    (process_completion_request_vlm prompt_options keys idx model (.tensor encoded)
        temperature max_tokens top_p seed (fuel + 1) stop json_mode preset
        system_message user_input env).requests ≠ [] ∧
    ∀ r ∈ (process_completion_request_vlm prompt_options keys idx model
        (.tensor encoded) temperature max_tokens top_p seed (fuel + 1) stop
        json_mode preset system_message user_input env).requests,
      r.data.messages = [] := by
  have hmsg : vlmMessages
      (resolve_system_message prompt_options preset system_message)
      user_input encoded = [] := by
    cases encoded with
    | none => rfl
    | some b64 =>
      simp only [truthyStrOpt, Bool.not_eq_false'] at henc
      have hb : b64 = "" := by
        exact eq_of_beq henc
      simp [vlmMessages, hb]
  constructor
  · exact runLoop_requests_ne_nil env keys _ fuel 0 idx hidx
  · intro r hr
    have hd := runLoop_requests_data env keys _ (fuel + 1) 0 idx r hr
    rw [hd]
    exact hmsg

/-- C9 witness: a tensor encoding to the empty string still produces a
non-empty request trace. -/
theorem c9_falsy_encoding_empty_messages_witness :
    (process_completion_request_vlm [] ["k1"] 0 "model-v" (.tensor (some ""))
        (1 : Nat) 128 1 42 1 "" false "preset-a" "sys" "usr"
        (fun _ => .reqError "boom")).requests ≠ [] :=
  (c9_falsy_encoding_empty_messages [] ["k1"] 0 "model-v" (some "") (1 : Nat) (1 : Nat)
      128 42 0 "" false "preset-a" "sys" "usr" (fun _ => .reqError "boom")
      (by decide) rfl).1

/-- C10: every request issued during one call carries the payload built
once from the inputs before the loop, with the stop key present only when
the stop string is non-empty; only the credential may differ between
attempts. -/
theorem c10_payload_constant {F : Type}
    (prompt_options : List (String × String)) (keys : List String) (idx : Nat)
    (model preset system_message user_input : String) (temperature top_p : F)
    (max_tokens seed max_retries : Nat) (stop : String) (json_mode : Bool)
    (encoded : Option String) (env : Nat → Outcome) :
    (∀ r ∈ (process_completion_request_llm prompt_options keys idx model preset
        system_message user_input temperature max_tokens top_p seed
        max_retries stop json_mode env).requests,
      r.data = { model := model,
                 messages := [⟨"system",
                     .str (resolve_system_message prompt_options preset system_message)⟩,
                   ⟨"user", .str user_input⟩],
                 temperature := temperature, max_tokens := max_tokens,
                 top_p := top_p, seed := seed,
                 stop := if stop = "" then none else some stop }) ∧
    (∀ r ∈ (process_completion_request_vlm prompt_options keys idx model
        (.tensor encoded) temperature max_tokens top_p seed max_retries stop
        json_mode preset system_message user_input env).requests,
      r.data = { model := model,
                 messages := vlmMessages
                     (resolve_system_message prompt_options preset system_message)
                     user_input encoded,
                 temperature := temperature, max_tokens := max_tokens,
                 top_p := top_p, seed := seed,
                 stop := if stop = "" then none else some stop }) := by
  constructor
  · intro r hr
    exact runLoop_requests_data env keys _ max_retries 0 idx r hr
  · intro r hr
    exact runLoop_requests_data env keys _ max_retries 0 idx r hr

/-- C10 witness: the single request of a one-retry run carries exactly the
payload built from the inputs. -/
theorem c10_payload_constant_witness :
    (⟨"k1", witnessPayload⟩ : Request Nat).data = witnessPayload :=
  (c10_payload_constant [] ["k1"] 0 "model-a" "preset-a" "sys" "usr" (1 : Nat) (1 : Nat)
      128 42 1 "" false none (fun _ => .reqError "boom")).1
    ⟨"k1", witnessPayload⟩ (by decide)

/-- C8: after construction from any configuration and after any sequence of
rotations and dispatches, the credential pool is non-empty and the cursor
is a valid index into it. -/
theorem c8_pool_invariant (F : Type) (config : Option String)
    (ops : List (NodeOp F)) :
    0 < (applyOps (mkNodeState config) ops).api_keys.length ∧
      (applyOps (mkNodeState config) ops).current_key_index <
        (applyOps (mkNodeState config) ops).api_keys.length := by
  have hinit : (mkNodeState config).current_key_index <
      (mkNodeState config).api_keys.length := load_api_keys_length_pos config
  have h := applyOps_preserves ops (mkNodeState config) hinit
  refine ⟨?_, h.2⟩
  rw [h.1]
  exact load_api_keys_length_pos config

end GroqNodes
